import Mathlib

/-!
Verification of the STEP-loader selection / face-map / export core.

The definitions below are a shallow embedding of the repository's code:
* the selection state machine of `src/demos/engine+export/index.js`
  (`selectionState`, `startSelection`, `addFaceToSelection`,
  `confirmSelection`, `enhancedConfirmSelection`);
* the face map built by `importSTEP` in `src/common/visualize.js`;
* the group extractor `createGroupFromSelection` / `exportGroupAsSTL`
  of `src/demos/engine+export/stlExporter.js`;
* the export pipeline `generateAndStoreSTL` / `sendSTLToServer` of
  `src/demos/engine+export/serverStorage.js` together with the server's
  base64 decoding in `server.js`.

JavaScript `Map`s are embedded as association lists with `Map.set`
update-in-place-or-append semantics, and JavaScript `Set`s as
duplicate-free lists in insertion order (`Array.from` yields exactly
that list).
-/

/-- Association-list lookup, mirroring JavaScript `Map.get`. -/
def assocFind {κ β : Type} [DecidableEq κ] (k : κ) : List (κ × β) → Option β
  | [] => none
  | (k', v) :: rest => if k' = k then some v else assocFind k rest

/-- Association-list update, mirroring JavaScript `Map.set`: an existing
key is overwritten in place, a new key is appended at the end. -/
def mapSet {κ β : Type} [DecidableEq κ] (k : κ) (v : β) : List (κ × β) → List (κ × β)
  | [] => [(k, v)]
  | (k', v') :: rest => if k' = k then (k, v) :: rest else (k', v') :: mapSet k v rest

/-- The mutable `selectionState` object of `index.js`:
`{ mode, selectedFaces, physicalGroups, inSelectionMode }`.
`selectedFaces` is a JS `Set` kept as its insertion-order list;
`physicalGroups` is a JS `Map` kept as an association list whose keys are
the (possibly `null`) `mode` values. -/
structure SelState where
  mode : Option String
  selectedFaces : List Nat
  physicalGroups : List (Option String × List Nat)
  inSelectionMode : Bool
deriving DecidableEq, Repr

/-- The initial `selectionState` literal of `index.js`:
`{ mode: null, selectedFaces: new Set(), physicalGroups: new Map(), inSelectionMode: false }`. -/
def initSelectionState : SelState :=
  { mode := none, selectedFaces := [], physicalGroups := [], inSelectionMode := false }

/-- `startSelection(groupName)` from `index.js`: sets the mode, clears
`selectedFaces`, enters selection mode (UI and recoloring side effects
are external). -/
def startSelection (groupName : String) (st : SelState) : SelState :=
  { st with mode := some groupName, selectedFaces := [], inSelectionMode := true }

/-- `addFaceToSelection(faceIndex, mesh)` from `index.js`: a no-op unless
`inSelectionMode`; otherwise removes the face if already selected and
appends it otherwise (the mesh recoloring is external to the state). -/
def addFaceToSelection (faceIndex : Nat) (st : SelState) : SelState :=
  if st.inSelectionMode = false then st
  else if faceIndex ∈ st.selectedFaces then
    { st with selectedFaces := st.selectedFaces.erase faceIndex }
  else
    { st with selectedFaces := st.selectedFaces ++ [faceIndex] }

/-- `confirmSelection()` from `index.js`: guarded no-op when not in
selection mode or when nothing is selected; otherwise stores
`physicalGroups.set(mode, Array.from(selectedFaces))` and leaves
selection mode.  Note the source never clears `selectedFaces`. -/
def confirmSelection (st : SelState) : SelState :=
  if st.inSelectionMode = false ∨ st.selectedFaces = [] then st
  else
    { st with physicalGroups := mapSet st.mode st.selectedFaces st.physicalGroups,
              inSelectionMode := false }

/-- `enhancedConfirmSelection` from `index.js` (the wrapper installed at
initialization): it first writes
`physicalGroups.set(mode, Array.from(selectedFaces))` unconditionally and
then calls the original `confirmSelection` (the `backupSelectionState` /
`validateFaceIndices` calls do not change the state). -/
def enhancedConfirmSelection (st : SelState) : SelState :=
  confirmSelection
    { st with physicalGroups := mapSet st.mode st.selectedFaces st.physicalGroups }

/-- States reachable from the initial `selectionState` by the public
operations `startSelection`, `addFaceToSelection` (toggle) and the base
`confirmSelection`. -/
inductive Reachable : SelState → Prop
  | base : Reachable initSelectionState
  | step_start (g : String) {st : SelState} : Reachable st → Reachable (startSelection g st)
  | step_toggle (f : Nat) {st : SelState} : Reachable st → Reachable (addFaceToSelection f st)
  | step_confirm {st : SelState} : Reachable st → Reachable (confirmSelection st)

theorem assocFind_mapSet_self {κ β : Type} [DecidableEq κ] (k : κ) (v : β)
    (m : List (κ × β)) : assocFind k (mapSet k v m) = some v := by
  induction m with
  | nil => simp [mapSet, assocFind]
  | cons hd tl ih =>
    obtain ⟨k', v'⟩ := hd
    by_cases h : k' = k
    · simp [mapSet, h, assocFind]
    · simp [mapSet, h, assocFind, ih]

/-- Claim C1 (amended): after `startSelection("inlet")`, `toggleFace(3)`,
`toggleFace(5)`, `confirm()` from any prior session state, the group
`"inlet"` holds `[3, 5]` in insertion order and the machine is `Idle`
(`inSelectionMode = false`), but `selectedFaces` still holds `[3, 5]`:
the source's `confirmSelection` never clears it (it is cleared only by
the next `startSelection`). -/
theorem confirm_sequence_inlet (st : SelState) :
    assocFind (some "inlet")
        (confirmSelection (addFaceToSelection 5 (addFaceToSelection 3
          (startSelection "inlet" st)))).physicalGroups = some [3, 5]
      ∧ (confirmSelection (addFaceToSelection 5 (addFaceToSelection 3
          (startSelection "inlet" st)))).inSelectionMode = false
      ∧ (confirmSelection (addFaceToSelection 5 (addFaceToSelection 3
          (startSelection "inlet" st)))).selectedFaces = [3, 5] := by
  have h : addFaceToSelection 5 (addFaceToSelection 3 (startSelection "inlet" st))
      = { st with mode := some "inlet", selectedFaces := [3, 5], inSelectionMode := true } := by
    simp [startSelection, addFaceToSelection]
  rw [h]
  simp [confirmSelection, assocFind_mapSet_self]

/-- Claim C1 is false as stated: running the quoted call sequence on the
initial state leaves `selectedFaces = [3, 5]`, not empty. -/
theorem confirm_sequence_inlet_cx :
    ¬ (assocFind (some "inlet")
          (confirmSelection (addFaceToSelection 5 (addFaceToSelection 3
            (startSelection "inlet" initSelectionState)))).physicalGroups = some [3, 5]
        ∧ (confirmSelection (addFaceToSelection 5 (addFaceToSelection 3
            (startSelection "inlet" initSelectionState)))).selectedFaces = []
        ∧ (confirmSelection (addFaceToSelection 5 (addFaceToSelection 3
            (startSelection "inlet" initSelectionState)))).inSelectionMode = false) := by
  decide

/-- Claim C2: the base `confirmSelection` with an empty selection is a
full no-op, but the deployed wrapper `enhancedConfirmSelection` is not:
called in `Selecting("inlet")` with `selectedFaces` empty and a
previously confirmed group `inlet = [3, 5]`, it overwrites the group with
the empty array while staying in selection mode, so `physicalGroups` is
changed even though the spec (and the base function's own guard) require
it untouched. -/
theorem enhancedConfirm_empty_mutates :
    (confirmSelection
        { mode := some "inlet", selectedFaces := [],
          physicalGroups := [(some "inlet", [3, 5])], inSelectionMode := true }
      = { mode := some "inlet", selectedFaces := [],
          physicalGroups := [(some "inlet", [3, 5])], inSelectionMode := true })
    ∧ (enhancedConfirmSelection
        { mode := some "inlet", selectedFaces := [],
          physicalGroups := [(some "inlet", [3, 5])], inSelectionMode := true }).physicalGroups
      = [(some "inlet", [])]
    ∧ (enhancedConfirmSelection
        { mode := some "inlet", selectedFaces := [],
          physicalGroups := [(some "inlet", [3, 5])], inSelectionMode := true }).inSelectionMode
      = true := by
  decide

/-- Claim C4 is false as stated: the reachable state after
`startSelection("outlet")`, `toggleFace(1)`, `confirm()` has
`inSelectionMode = false` yet a non-empty `selectedFaces`, because
`confirmSelection` does not clear the selection. -/
theorem selection_invariant_cx :
    ¬ (∀ st : SelState, Reachable st → st.inSelectionMode = false →
        st.selectedFaces = []) := by
  intro h
  have hr : Reachable (confirmSelection (addFaceToSelection 1
      (startSelection "outlet" initSelectionState))) :=
    Reachable.step_confirm (Reachable.step_toggle 1
      (Reachable.step_start "outlet" Reachable.base))
  have := h _ hr (by decide)
  exact absurd this (by decide)

theorem addFace_frame_helper (f : Nat) (st : SelState) :
    (addFaceToSelection f st).mode = st.mode
    ∧ (addFaceToSelection f st).inSelectionMode = st.inSelectionMode
    ∧ (addFaceToSelection f st).physicalGroups = st.physicalGroups := by
  simp only [addFaceToSelection]
  split
  · exact ⟨rfl, rfl, rfl⟩
  · split <;> exact ⟨rfl, rfl, rfl⟩

/-- Claim C4 (amended): in every reachable state with
`inSelectionMode = false`, either `selectedFaces` is empty or it is
exactly the list just confirmed under the current mode
(`physicalGroups.get(mode) = Array.from(selectedFaces)`): the selection
survives confirmation and is discarded only by the next
`startSelection`. -/
theorem selection_invariant_amended (st : SelState) (h : Reachable st) :
    st.inSelectionMode = false →
      st.selectedFaces = []
        ∨ assocFind st.mode st.physicalGroups = some st.selectedFaces := by
  induction h with
  | base => intro _; exact Or.inl rfl
  | step_start g hst ih =>
    intro hfalse
    simp [startSelection] at hfalse
  | step_toggle f hst ih =>
    rename_i st'
    intro hfalse
    by_cases hm : st'.inSelectionMode = false
    · have heq : addFaceToSelection f st' = st' := by
        simp [addFaceToSelection, hm]
      rw [heq] at hfalse ⊢
      exact ih hfalse
    · rw [(addFace_frame_helper f st').2.1] at hfalse
      exact absurd hfalse hm
  | step_confirm hst ih =>
    rename_i st'
    intro hfalse
    by_cases hg : st'.inSelectionMode = false ∨ st'.selectedFaces = []
    · have heq : confirmSelection st' = st' := by
        simp only [confirmSelection, if_pos hg]
      rw [heq] at hfalse ⊢
      exact ih hfalse
    · have heq : confirmSelection st'
          = { st' with physicalGroups := mapSet st'.mode st'.selectedFaces st'.physicalGroups,
                       inSelectionMode := false } := by
        simp only [confirmSelection, if_neg hg]
      rw [heq]
      exact Or.inr (assocFind_mapSet_self _ _ _)

/-- Witness for the amended C4 invariant at the concrete reachable state
reached by `startSelection("wall")`, `toggleFace(2)`, `confirm()`. -/
theorem selection_invariant_amended_witness :
    (confirmSelection (addFaceToSelection 2
        (startSelection "wall" initSelectionState))).selectedFaces = []
      ∨ assocFind (confirmSelection (addFaceToSelection 2
            (startSelection "wall" initSelectionState))).mode
          (confirmSelection (addFaceToSelection 2
            (startSelection "wall" initSelectionState))).physicalGroups
        = some (confirmSelection (addFaceToSelection 2
            (startSelection "wall" initSelectionState))).selectedFaces :=
  selection_invariant_amended _
    (Reachable.step_confirm (Reachable.step_toggle 2
      (Reachable.step_start "wall" Reachable.base)))
    (by decide)

/-- Claim C9: on a duplicate-free selection (the JS `Set` representation
invariant), toggling the same `faceId` twice restores `selectedFaces` to
its prior value as a set (same members; a present face is removed and
re-appended, so only the insertion order may differ); a single toggle
appends the face when absent and erases it when present; and outside
selection mode `addFaceToSelection` leaves the whole state unchanged. -/
theorem toggleFace_twice (st : SelState) (f : Nat) (hnd : st.selectedFaces.Nodup) :
    (∀ x, x ∈ (addFaceToSelection f (addFaceToSelection f st)).selectedFaces
        ↔ x ∈ st.selectedFaces)
    ∧ (st.inSelectionMode = false → addFaceToSelection f st = st)
    ∧ (st.inSelectionMode = true → f ∉ st.selectedFaces →
        (addFaceToSelection f st).selectedFaces = st.selectedFaces ++ [f])
    ∧ (st.inSelectionMode = true → f ∈ st.selectedFaces →
        (addFaceToSelection f st).selectedFaces = st.selectedFaces.erase f) := by
  by_cases hm : st.inSelectionMode = false
  · have heq : addFaceToSelection f st = st := by simp [addFaceToSelection, hm]
    refine ⟨?_, fun _ => heq, ?_, ?_⟩
    · rw [heq, heq]; exact fun x => Iff.rfl
    · intro htrue; rw [hm] at htrue; exact absurd htrue (by decide)
    · intro htrue; rw [hm] at htrue; exact absurd htrue (by decide)
  · have hm' : st.inSelectionMode = true := by
      revert hm; cases st.inSelectionMode <;> simp
    by_cases hf : f ∈ st.selectedFaces
    · have h1 : addFaceToSelection f st
          = { st with selectedFaces := st.selectedFaces.erase f } := by
        simp [addFaceToSelection, hm', hf]
      have hfe : f ∉ st.selectedFaces.erase f := hnd.not_mem_erase
      have h2 : addFaceToSelection f (addFaceToSelection f st)
          = { st with selectedFaces := st.selectedFaces.erase f ++ [f] } := by
        rw [h1]
        simp [addFaceToSelection, hm', hfe]
      refine ⟨?_, ?_, ?_, fun _ _ => by rw [h1]⟩
      · intro x
        rw [h2]
        show x ∈ st.selectedFaces.erase f ++ [f] ↔ x ∈ st.selectedFaces
        by_cases hx : x = f
        · subst hx; simp [hf]
        · simp [List.mem_erase_of_ne hx, hx]
      · intro habs; rw [hm'] at habs; exact absurd habs (by decide)
      · intro _ habs; exact absurd hf habs
    · have h1 : addFaceToSelection f st
          = { st with selectedFaces := st.selectedFaces ++ [f] } := by
        simp [addFaceToSelection, hm', hf]
      have hf2 : f ∈ st.selectedFaces ++ [f] := by simp
      have h2 : addFaceToSelection f (addFaceToSelection f st)
          = { st with selectedFaces := (st.selectedFaces ++ [f]).erase f } := by
        rw [h1]
        simp [addFaceToSelection, hm', hf2]
      have herase : (st.selectedFaces ++ [f]).erase f = st.selectedFaces := by
        rw [List.erase_append_right _ hf]
        simp
      refine ⟨?_, ?_, fun _ _ => by rw [h1], ?_⟩
      · intro x
        rw [h2]
        show x ∈ (st.selectedFaces ++ [f]).erase f ↔ x ∈ st.selectedFaces
        rw [herase]
      · intro habs; rw [hm'] at habs; exact absurd habs (by decide)
      · intro _ habs; exact absurd habs hf

/-- A concrete selection state used to witness C9: `Selecting("inlet")`
with `selectedFaces = [4, 7]`. -/
def c9State : SelState :=
  { mode := some "inlet", selectedFaces := [4, 7],
    physicalGroups := [], inSelectionMode := true }

/-- Witness for C9 at the concrete state `c9State`, toggling face `4`. -/
theorem toggleFace_twice_witness :
    (∀ x, x ∈ (addFaceToSelection 4 (addFaceToSelection 4 c9State)).selectedFaces
        ↔ x ∈ c9State.selectedFaces)
    ∧ (c9State.inSelectionMode = false → addFaceToSelection 4 c9State = c9State)
    ∧ (c9State.inSelectionMode = true → 4 ∉ c9State.selectedFaces →
        (addFaceToSelection 4 c9State).selectedFaces = c9State.selectedFaces ++ [4])
    ∧ (c9State.inSelectionMode = true → 4 ∈ c9State.selectedFaces →
        (addFaceToSelection 4 c9State).selectedFaces = c9State.selectedFaces.erase 4) :=
  toggleFace_twice c9State 4 (by decide)

/-- Claim C10: `addFaceToSelection` is a frame-preserving toggle: for
every state and face id it leaves `mode`, `inSelectionMode` and the whole
`physicalGroups` map (every confirmed group included) unchanged, touching
only `selectedFaces` (the mesh color change lives outside the state). -/
theorem addFace_frame (f : Nat) (st : SelState) :
    (addFaceToSelection f st).mode = st.mode
    ∧ (addFaceToSelection f st).inSelectionMode = st.inSelectionMode
    ∧ (addFaceToSelection f st).physicalGroups = st.physicalGroups :=
  addFace_frame_helper f st

/-- The face-numbering loop of `importSTEP` (`visualize.js`): a counter
starting at `0` is incremented before each face met by the kernel's
`TopExp_Explorer` traversal, and `faceMap.set(faceIndex, { face })` binds
the counter to the native face handle. -/
def buildFaceMapFrom {α : Type} (counter : Nat) : List α → List (Nat × α)
  | [] => []
  | f :: fs => (counter + 1, f) :: buildFaceMapFrom (counter + 1) fs

/-- `buildFaceMap(tessellatedShape)` of the spec, as implemented by the
loop in `importSTEP`: faces in kernel-traversal order get ids `1..N`. -/
def buildFaceMap {α : Type} (faces : List α) : List (Nat × α) :=
  buildFaceMapFrom 0 faces

/-- `importSTEP(openCascade, fileContents)` from `visualize.js`, with the
kernel abstracted: `readOk` is whether `ReadFile` returned
`IFSelect_RetDone`, `shape` the shape it yields, and `faces` the kernel's
face-iterator traversal of that shape.  On read failure the function
returns `{ shape: null, faceMap: new Map() }`. -/
def importSTEP {σ α : Type} (readOk : Bool) (shape : σ) (faces : List α) :
    Option σ × List (Nat × α) :=
  if readOk then (some shape, buildFaceMap faces) else (none, [])

theorem buildFaceMapFrom_spec {α : Type} (faces : List α) : ∀ s : Nat,
    (buildFaceMapFrom s faces).map Prod.fst = List.range' (s + 1) faces.length
    ∧ (buildFaceMapFrom s faces).map Prod.snd = faces := by
  induction faces with
  | nil => intro s; simp [buildFaceMapFrom]
  | cons f fs ih =>
    intro s
    have h := ih (s + 1)
    simp only [buildFaceMapFrom, List.map_cons, List.length_cons, List.range'_succ]
    exact ⟨by rw [h.1], by rw [h.2]⟩

/-- Claim C5: for every imported shape whose kernel traversal yields `N`
faces, the face map built by `importSTEP` has exactly `N` entries whose
ids are precisely the contiguous integers `1..N`, in order, each bound to
the corresponding native face handle; a zero-face shape yields the empty
mapping rather than an error. -/
theorem importSTEP_faceMap {σ α : Type} (shape : σ) (faces : List α) :
    (importSTEP true shape faces).2.map Prod.fst = List.range' 1 faces.length
    ∧ (importSTEP true shape faces).2.length = faces.length
    ∧ (importSTEP true shape faces).2.map Prod.snd = faces
    ∧ (importSTEP true shape ([] : List α)).2 = [] := by
  have h := buildFaceMapFrom_spec faces 0
  refine ⟨h.1, ?_, h.2, rfl⟩
  have := congrArg List.length h.2
  simpa using this

/-- A renderable face mesh as `addShapeToScene` (`index.js`) builds it:
`faceIndex` is the id stored in `userData`, and `modelId` tags the
model import the geometry came from (its provenance). -/
structure FaceMesh where
  faceIndex : Nat
  modelId : Nat
deriving DecidableEq, Repr

/-- The distinct failure exits of `createGroupFromSelection`
(`stlExporter.js`), one per `console.error`-then-`return null` site. -/
inductive ExtractError where
  | groupNotFound
  | emptyFaceList
  | noModelGroup
  | noFacesAdded
deriving DecidableEq, Repr

/-- `createGroupFromSelection(physicalGroups, groupName, scene)` from
`stlExporter.js`: looks the group up, fails if absent or empty, finds the
scene's `"shape"` group (`modelGroup`, `none` when absent), collects for
each stored face id the first current mesh with that `userData.faceIndex`
(a clone of it), and fails if no mesh was found for any id. -/
def createGroupFromSelection (physicalGroups : List (Option String × List Nat))
    (groupName : String) (modelGroup : Option (List FaceMesh)) :
    Except ExtractError (List FaceMesh) :=
  match assocFind (some groupName) physicalGroups with
  | none => .error .groupNotFound
  | some faceIndices =>
    if faceIndices = [] then .error .emptyFaceList
    else
      match modelGroup with
      | none => .error .noModelGroup
      | some children =>
        if faceIndices.filterMap
            (fun i => children.find? (fun m => m.faceIndex == i)) = [] then
          .error .noFacesAdded
        else
          .ok (faceIndices.filterMap
            (fun i => children.find? (fun m => m.faceIndex == i)))

/-- `exportGroupAsSTL(physicalGroups, groupName, scene, binary)` from
`stlExporter.js`, with the Three.js `STLExporter.parse` encoder
abstracted as `encode`: any failure of `createGroupFromSelection`
propagates (the function returns `null`), otherwise the extracted meshes
are encoded. -/
def exportGroupAsSTL (encode : List FaceMesh → Bool → List Nat)
    (physicalGroups : List (Option String × List Nat)) (groupName : String)
    (modelGroup : Option (List FaceMesh)) (binary : Bool) :
    Except ExtractError (List Nat) :=
  match createGroupFromSelection physicalGroups groupName modelGroup with
  | .error e => .error e
  | .ok ms => .ok (encode ms binary)

/-- The scene contents after `loadSTEPFile` + `addShapeToScene`
re-imports a model: the old `"shape"` group is removed and replaced by
meshes with `userData.faceIndex = 1..numFaces` belonging to the new
model. -/
def importScene (modelId numFaces : Nat) : List FaceMesh :=
  (List.range numFaces).map (fun i => { faceIndex := i + 1, modelId := modelId })

/-- Claim C3 is false as stated: a group confirmed as `[3]` against a
first model (5 faces, modelId 1) and extracted after importing a
different model (4 faces, modelId 2) does not fail — it returns face 3 of
the new model, because face ids are bare integers that the re-import
reuses. -/
theorem stale_extract_cx :
    createGroupFromSelection [(some "inlet", [3])] "inlet" (some (importScene 2 4))
      = .ok [{ faceIndex := 3, modelId := 2 }]
    ∧ (createGroupFromSelection [(some "inlet", [3])] "inlet"
        (some (importScene 2 4))).isOk = true := by
  exact ⟨rfl, rfl⟩

/-- Claim C3 (amended): extraction draws exclusively on the current
scene, so after a re-import a stored group either fails
(`noFacesAdded`, when none of its stale ids matches a current
`faceIndex`) or silently yields the *new* model's meshes for the ids that
do match; a successful extraction is never empty and contains only
current-scene meshes. -/
theorem stale_extract_amended (physicalGroups : List (Option String × List Nat))
    (groupName : String) (children : List FaceMesh) (faceIndices : List Nat)
    (hl : assocFind (some groupName) physicalGroups = some faceIndices) :
    (∀ ms, createGroupFromSelection physicalGroups groupName (some children) = .ok ms →
        ms ≠ [] ∧ ∀ m ∈ ms, m ∈ children)
    ∧ ((∀ i ∈ faceIndices, ∀ m ∈ children, m.faceIndex ≠ i) → faceIndices ≠ [] →
        createGroupFromSelection physicalGroups groupName (some children)
          = .error .noFacesAdded) := by
  constructor
  · intro ms hms
    simp only [createGroupFromSelection, hl] at hms
    by_cases he : faceIndices = []
    · rw [if_pos he] at hms; exact absurd hms (by simp)
    · rw [if_neg he] at hms
      by_cases hx : faceIndices.filterMap
          (fun i => children.find? (fun m => m.faceIndex == i)) = []
      · rw [if_pos hx] at hms; exact absurd hms (by simp)
      · rw [if_neg hx] at hms
        have hms' : faceIndices.filterMap
            (fun i => children.find? (fun m => m.faceIndex == i)) = ms := by
          simpa using hms
        subst hms'
        refine ⟨hx, ?_⟩
        intro m hm
        rw [List.mem_filterMap] at hm
        obtain ⟨i, _, hfind⟩ := hm
        exact List.mem_of_find?_eq_some hfind
  · intro hnone hne
    have hx : faceIndices.filterMap
        (fun i => children.find? (fun m => m.faceIndex == i)) = [] := by
      rw [List.filterMap_eq_nil_iff]
      intro i hi
      rw [List.find?_eq_none]
      intro m hm
      simpa using hnone i hi m hm
    simp only [createGroupFromSelection, hl, if_neg hne, if_pos hx]

/-- Witness for the amended C3: group `inlet = [9]` is stale relative to
a one-face scene (modelId 5), no id matches, and extraction fails with
`noFacesAdded`. -/
theorem stale_extract_amended_witness :
    (∀ ms, createGroupFromSelection [(some "inlet", [9])] "inlet"
        (some [{ faceIndex := 1, modelId := 5 }]) = .ok ms →
        ms ≠ [] ∧ ∀ m ∈ ms, m ∈ [({ faceIndex := 1, modelId := 5 } : FaceMesh)])
    ∧ ((∀ i ∈ [9], ∀ m ∈ [({ faceIndex := 1, modelId := 5 } : FaceMesh)],
          m.faceIndex ≠ i) → ([9] : List Nat) ≠ [] →
        createGroupFromSelection [(some "inlet", [9])] "inlet"
          (some [{ faceIndex := 1, modelId := 5 }]) = .error .noFacesAdded) :=
  stale_extract_amended [(some "inlet", [9])] "inlet"
    [{ faceIndex := 1, modelId := 5 }] [9] rfl

/-- Claim C6: extracting a group name absent from `physicalGroups` fails
with the `groupNotFound` outcome — both in `createGroupFromSelection` and
through `exportGroupAsSTL` — and in particular never produces an `.ok`
(empty or otherwise) result for that name. -/
theorem extract_groupNotFound (encode : List FaceMesh → Bool → List Nat)
    (physicalGroups : List (Option String × List Nat)) (groupName : String)
    (modelGroup : Option (List FaceMesh)) (binary : Bool)
    (h : assocFind (some groupName) physicalGroups = none) :
    createGroupFromSelection physicalGroups groupName modelGroup
      = .error .groupNotFound
    ∧ exportGroupAsSTL encode physicalGroups groupName modelGroup binary
      = .error .groupNotFound
    ∧ ∀ ms, createGroupFromSelection physicalGroups groupName modelGroup ≠ .ok ms := by
  have h1 : createGroupFromSelection physicalGroups groupName modelGroup
      = .error .groupNotFound := by
    simp only [createGroupFromSelection, h]
  refine ⟨h1, ?_, ?_⟩
  · simp only [exportGroupAsSTL, h1]
  · intro ms hms
    rw [h1] at hms
    exact absurd hms (by simp)

/-- Witness for C6: the map holds only `wall`, and asking for `inlet`
fails with `groupNotFound`. -/
theorem extract_groupNotFound_witness :
    createGroupFromSelection [(some "wall", [1])] "inlet"
      (some [{ faceIndex := 1, modelId := 1 }]) = .error .groupNotFound
    ∧ exportGroupAsSTL (fun _ _ => []) [(some "wall", [1])] "inlet"
        (some [{ faceIndex := 1, modelId := 1 }]) true = .error .groupNotFound
    ∧ ∀ ms, createGroupFromSelection [(some "wall", [1])] "inlet"
        (some [{ faceIndex := 1, modelId := 1 }]) ≠ .ok ms :=
  extract_groupNotFound (fun _ _ => []) [(some "wall", [1])] "inlet"
    (some [{ faceIndex := 1, modelId := 1 }]) true rfl

/-- The base64 alphabet used by `btoa` (browser) and
`Buffer.from(-, 'base64')` (server). -/
def b64chars : List Char :=
  ['A', 'B', 'C', 'D', 'E', 'F', 'G', 'H', 'I', 'J', 'K', 'L', 'M',
   'N', 'O', 'P', 'Q', 'R', 'S', 'T', 'U', 'V', 'W', 'X', 'Y', 'Z',
   'a', 'b', 'c', 'd', 'e', 'f', 'g', 'h', 'i', 'j', 'k', 'l', 'm',
   'n', 'o', 'p', 'q', 'r', 's', 't', 'u', 'v', 'w', 'x', 'y', 'z',
   '0', '1', '2', '3', '4', '5', '6', '7', '8', '9', '+', '/']

def sextetToChar (n : Nat) : Char := b64chars.getD n 'A'

def charToSextet (c : Char) : Option Nat := b64chars.findIdx? (fun d => d == c)

/-- `btoa(stlData)` from `sendSTLToServer` (`serverStorage.js`): base64
encoding of a byte string (each element `< 256`). -/
def encodeB64 : List Nat → List Char
  | [] => []
  | [a] => [sextetToChar (a / 4), sextetToChar (a % 4 * 16), '=', '=']
  | [a, b] => [sextetToChar (a / 4), sextetToChar (a % 4 * 16 + b / 16),
               sextetToChar (b % 16 * 4), '=']
  | a :: b :: c :: rest =>
      sextetToChar (a / 4) :: sextetToChar (a % 4 * 16 + b / 16) ::
      sextetToChar (b % 16 * 4 + c / 64) :: sextetToChar (c % 64) :: encodeB64 rest

/-- `Buffer.from(stlData, 'base64')` on the server
(`app.post('/api/store-stl')` in `server.js`): base64 decoding back to
the byte string, `none` on malformed input. -/
def decodeB64 : List Char → Option (List Nat)
  | [] => some []
  | c1 :: c2 :: c3 :: c4 :: rest =>
      match charToSextet c1, charToSextet c2 with
      | some s1, some s2 =>
          if c3 = '=' then
            if c4 = '=' ∧ rest = [] then some [s1 * 4 + s2 / 16] else none
          else
            match charToSextet c3 with
            | some s3 =>
                if c4 = '=' then
                  if rest = [] then some [s1 * 4 + s2 / 16, s2 % 16 * 16 + s3 / 4]
                  else none
                else
                  match charToSextet c4 with
                  | some s4 =>
                      match decodeB64 rest with
                      | some t => some ((s1 * 4 + s2 / 16) :: (s2 % 16 * 16 + s3 / 4) ::
                                        (s3 % 4 * 64 + s4) :: t)
                      | none => none
                  | none => none
            | none => none
      | _, _ => none
  | _ => none

theorem charToSextet_sextetToChar : ∀ n < 64, charToSextet (sextetToChar n) = some n := by
  decide

theorem sextetToChar_ne_pad : ∀ n < 64, sextetToChar n ≠ '=' := by
  decide

theorem decodeB64_encodeB64 (d : List Nat) (h : ∀ x ∈ d, x < 256) :
    decodeB64 (encodeB64 d) = some d := by
  induction d using encodeB64.induct with
  | case1 => rfl
  | case2 a =>
    have ha : a < 256 := h a (by simp)
    have h1 : a / 4 < 64 := by omega
    have h2 : a % 4 * 16 < 64 := by omega
    simp [encodeB64, decodeB64, charToSextet_sextetToChar _ h1,
      charToSextet_sextetToChar _ h2]
    omega
  | case3 a b =>
    have ha : a < 256 := h a (by simp)
    have hb : b < 256 := h b (by simp)
    have h1 : a / 4 < 64 := by omega
    have h2 : a % 4 * 16 + b / 16 < 64 := by omega
    have h3 : b % 16 * 4 < 64 := by omega
    have e3 := sextetToChar_ne_pad _ h3
    simp [encodeB64, decodeB64, charToSextet_sextetToChar _ h1,
      charToSextet_sextetToChar _ h2, charToSextet_sextetToChar _ h3, e3]
    constructor <;> omega
  | case4 a b c rest ih =>
    have ha : a < 256 := h a (by simp)
    have hb : b < 256 := h b (by simp)
    have hc : c < 256 := h c (by simp)
    have hrest : ∀ x ∈ rest, x < 256 := fun x hx => h x (by simp [hx])
    have h1 : a / 4 < 64 := by omega
    have h2 : a % 4 * 16 + b / 16 < 64 := by omega
    have h3 : b % 16 * 4 + c / 64 < 64 := by omega
    have h4 : c % 64 < 64 := by omega
    have e3 := sextetToChar_ne_pad _ h3
    have e4 := sextetToChar_ne_pad _ h4
    simp [encodeB64, decodeB64, charToSextet_sextetToChar _ h1,
      charToSextet_sextetToChar _ h2, charToSextet_sextetToChar _ h3,
      charToSextet_sextetToChar _ h4, e3, e4, ih hrest]
    refine ⟨by omega, by omega, by omega⟩

/-- The `metadata` object of the wire contract:
`{ createdAt: new Date().toISOString(), facesCount: selectionState.selectedFaces.size }`. -/
structure STLMetadata where
  createdAt : String
  facesCount : Nat
deriving DecidableEq, Repr

/-- The JSON body `sendSTLToServer` posts to `/api/store-stl`:
`{ projectId, groupName, stlData: btoa(stlData), metadata }`. -/
structure StoreRequest where
  projectId : String
  groupName : String
  stlData : List Char
  metadata : STLMetadata
deriving DecidableEq, Repr

/-- Request construction inside `sendSTLToServer` (`serverStorage.js`):
the mesh bytes are base64-encoded into `stlData`, and the wall-clock time
`now` enters only the metadata's `createdAt` field. -/
def mkStoreRequest (projectId groupName : String) (stl : List Nat)
    (now : String) (selectedCount : Nat) : StoreRequest :=
  { projectId := projectId, groupName := groupName,
    stlData := encodeB64 stl,
    metadata := { createdAt := now, facesCount := selectedCount } }

/-- `generateAndStoreSTL(groupName, faceIndices)` from `serverStorage.js`
with the kernel's `StlAPI.Write` abstracted as `kernelWrite`: bails out
when the scene has no face map, builds the compound from the stored
`faceIndices` through the face map, bails out when no face resolved, and
otherwise hands the kernel's bytes to `sendSTLToServer`, which stamps the
request with the current time `now`. -/
def generateAndStoreSTL {α : Type} (kernelWrite : List α → List Nat)
    (projectId groupName : String) (faceMap : Option (List (Nat × α)))
    (faceIndices : List Nat) (now : String) (selectedCount : Nat) :
    Option StoreRequest :=
  match faceMap with
  | none => none
  | some fm =>
      if (faceIndices.filterMap (fun i => assocFind i fm)).length = 0 then none
      else some (mkStoreRequest projectId groupName
        (kernelWrite (faceIndices.filterMap (fun i => assocFind i fm)))
        now selectedCount)

/-- Claim C7: the export encoding is deterministic and clock-free — for
unchanged geometry (same face map, face indices and kernel), two runs of
`generateAndStoreSTL` at different wall-clock times produce identical
encoded `stlData` bytes, and the timestamp surfaces only in the
accompanying `metadata.createdAt`, never inside the mesh bytes, which are
exactly the base64 encoding of the kernel's output. -/
theorem export_deterministic {α : Type} (kernelWrite : List α → List Nat)
    (projectId groupName : String) (faceMap : Option (List (Nat × α)))
    (faceIndices : List Nat) (t1 t2 : String) (c1 c2 : Nat) :
    (generateAndStoreSTL kernelWrite projectId groupName faceMap faceIndices t1 c1).map
        (fun r => r.stlData)
      = (generateAndStoreSTL kernelWrite projectId groupName faceMap faceIndices t2 c2).map
        (fun r => r.stlData)
    ∧ (∀ fm r, faceMap = some fm →
        generateAndStoreSTL kernelWrite projectId groupName faceMap faceIndices t1 c1
          = some r →
        r.metadata.createdAt = t1
        ∧ r.stlData = encodeB64 (kernelWrite
            (faceIndices.filterMap (fun i => assocFind i fm)))) := by
  constructor
  · cases faceMap with
    | none => rfl
    | some fm =>
      by_cases hx : (faceIndices.filterMap (fun i => assocFind i fm)).length = 0
      · simp [generateAndStoreSTL, hx]
      · simp [generateAndStoreSTL, hx, mkStoreRequest]
  · intro fm r hfm hr
    subst hfm
    by_cases hx : (faceIndices.filterMap (fun i => assocFind i fm)).length = 0
    · simp [generateAndStoreSTL, hx] at hr
    · simp [generateAndStoreSTL, hx, mkStoreRequest] at hr
      rw [← hr]
      exact ⟨rfl, rfl⟩

/-- Witness for C7 on a one-face model: the kernel output is reused
verbatim for two different timestamps. -/
theorem export_deterministic_witness :
    (generateAndStoreSTL (fun _ => [115, 111]) "project-a" "inlet"
        (some [(1, 0)]) [1] "2025-01-01T00:00:00Z" 1).map (fun r => r.stlData)
      = (generateAndStoreSTL (fun _ => [115, 111]) "project-a" "inlet"
        (some [(1, 0)]) [1] "2026-06-30T12:00:00Z" 2).map (fun r => r.stlData)
    ∧ (∀ fm r, (some [(1, 0)] : Option (List (Nat × Nat))) = some fm →
        generateAndStoreSTL (fun _ => [115, 111]) "project-a" "inlet"
          (some [(1, 0)]) [1] "2025-01-01T00:00:00Z" 1 = some r →
        r.metadata.createdAt = "2025-01-01T00:00:00Z"
        ∧ r.stlData = encodeB64 ((fun _ => [115, 111])
            (([1] : List Nat).filterMap (fun i => assocFind i fm)))) :=
  export_deterministic (fun _ => [115, 111]) "project-a" "inlet"
    (some [(1, 0)]) [1] "2025-01-01T00:00:00Z" "2026-06-30T12:00:00Z" 1 2

/-- The user-visible outcome of `sendSTLToServer` (`serverStorage.js`):
on a 2xx response the artifact is stored server-side; on a network error
or non-2xx status the `catch` branch offers a download link whose blob
holds exactly `stlData`. -/
inductive SendOutcome where
  | storedOnServer (request : StoreRequest)
  | localDownload (fileName : String) (artifact : List Nat)
deriving DecidableEq, Repr

/-- `sendSTLToServer(groupName, stlData)` from `serverStorage.js`:
builds the base64 request; `serverOk` stands for "fetch succeeded with a
2xx status".  On failure the catch handler creates the
`projectId_groupName.stl` download link over the raw `stlData` blob. -/
def sendSTLToServer (serverOk : Bool) (projectId groupName : String)
    (stl : List Nat) (now : String) (selectedCount : Nat) : SendOutcome :=
  if serverOk then
    .storedOnServer (mkStoreRequest projectId groupName stl now selectedCount)
  else
    .localDownload (projectId ++ "_" ++ groupName ++ ".stl") stl

/-- The server's `/api/store-stl` handler (`server.js`): the stored file
content is `Buffer.from(stlData, 'base64')`, the decoding of the
request's base64 field. -/
def serverStoredBytes (request : StoreRequest) : Option (List Nat) :=
  decodeB64 request.stlData

/-- Claim C8: when storage fails, the pipeline offers a local download of
the raw STL bytes, and those bytes coincide exactly with what the server
would have stored on success — the server's base64 decoding of the
request undoes the client's encoding.  No confirmed group's bytes are
lost. -/
theorem storage_failure_fallback (projectId groupName : String) (stl : List Nat)
    (now : String) (selectedCount : Nat) (h : ∀ x ∈ stl, x < 256) :
    sendSTLToServer false projectId groupName stl now selectedCount
      = .localDownload (projectId ++ "_" ++ groupName ++ ".stl") stl
    ∧ serverStoredBytes (mkStoreRequest projectId groupName stl now selectedCount)
      = some stl := by
  refine ⟨rfl, ?_⟩
  show decodeB64 (encodeB64 stl) = some stl
  exact decodeB64_encodeB64 stl h

/-- Witness for C8 on the concrete bytes of the ASCII fragment
`"solid"` (`[115, 111, 108, 105, 100]`). -/
theorem storage_failure_fallback_witness :
    sendSTLToServer false "project-b" "outlet" [115, 111, 108, 105, 100]
        "2025-03-04T05:06:07Z" 2
      = .localDownload ("project-b" ++ "_" ++ "outlet" ++ ".stl")
          [115, 111, 108, 105, 100]
    ∧ serverStoredBytes (mkStoreRequest "project-b" "outlet"
        [115, 111, 108, 105, 100] "2025-03-04T05:06:07Z" 2)
      = some [115, 111, 108, 105, 100] :=
  storage_failure_fallback "project-b" "outlet" [115, 111, 108, 105, 100]
    "2025-03-04T05:06:07Z" 2 (by decide)
